import Mathlib

/-!
Verification development for the `perplexity-skill` CLI core
(`src/perplexity_cli/main.py` and `src/perplexity_cli/config.py`):
provider routing, credential resolution, HTTP response classification,
thinking-block stripping, citation formatting, and search rendering,
shallowly embedded as executable Lean definitions.
-/

namespace PerplexityCli

/-- Provider enumeration from `config.py` (`class Provider`). -/
inductive Provider where
  | perplexity
  | openrouter
deriving DecidableEq, Repr

/-- Settings fields from `config.py` (`class Settings`). API keys model the
values after the keyring fallback has run; Python truthiness of a string
field is non-emptiness. -/
structure Settings where
  perplexity_api_key : String
  openrouter_api_key : String
  perplexity_base_url : String
  perplexity_timeout_ms : Nat
deriving DecidableEq, Repr

/-- Structured error payload written by `emit_error` in `main.py`
(message, code, retryable, remediation; defaults `retryable=False`,
`remediation=""`). -/
structure StructuredError where
  message : String
  code : Nat
  retryable : Bool
  remediation : String
deriving DecidableEq, Repr

/-- Model alias table `MODELS` from `config.py`, keyed by provider and
command name. -/
def MODELS (p : Provider) (command : String) : Option String :=
  match p, command with
  | .perplexity, "ask" => some "sonar-pro"
  | .perplexity, "research" => some "sonar-deep-research"
  | .perplexity, "reason" => some "sonar-reasoning-pro"
  | .openrouter, "ask" => some "perplexity/sonar-pro"
  | .openrouter, "research" => some "perplexity/sonar-deep-research"
  | .openrouter, "reason" => some "perplexity/sonar-reasoning"
  | _, _ => none

/-- Base URL table `BASE_URLS` from `config.py`. -/
def BASE_URLS (p : Provider) : String :=
  match p with
  | .perplexity => "https://api.perplexity.ai"
  | .openrouter => "https://openrouter.ai/api/v1"

/-- The function `_resolve_provider(provider, command)` from `main.py`
(lines 58-77).  `emit_error` raises and terminates the invocation, so the
function is embedded as `Except StructuredError Provider`.  Python string
truthiness (`if settings.perplexity_api_key:`) is non-emptiness. -/
def resolve_provider (st : Settings) (provider : Option Provider)
    (command : String) : Except StructuredError Provider :=
  if command = "search" then
    if provider = some Provider.openrouter then
      .error ⟨"The search command is only available via the Perplexity API (not OpenRouter).",
              2, false, "Use --provider perplexity or set PERPLEXITY_API_KEY"⟩
    else
      .ok Provider.perplexity
  else
    match provider with
    | some p => .ok p
    | none =>
      if !st.perplexity_api_key.isEmpty then .ok Provider.perplexity
      else if !st.openrouter_api_key.isEmpty then .ok Provider.openrouter
      else .ok Provider.perplexity

/-- Outcome of one keyring lookup in `Settings._keyring_fallback`
(`config.py` lines 40-54): either the call returns (`ok`, with Python's
`Optional[str]` as `Option String`) or it raises (`error`, any
exception). -/
abbrev KeyringOutcome := Except Unit (Option String)

/-- The per-field credential resolution of `Settings._keyring_fallback`
(`config.py` lines 40-54) combined with the field read: keep a truthy
(non-empty) explicit configuration value; otherwise consult the keyring,
keeping a truthy result; any exception is swallowed (`except Exception:
pass`) and the field keeps its prior (empty) value. -/
def keyring_fallback (configVal : String) (kr : KeyringOutcome) : String :=
  if !configVal.isEmpty then configVal
  else
    match kr with
    | .ok (some v) => if !v.isEmpty then v else configVal
    | .ok none => configVal
    | .error _ => configVal

/-- Transport-level outcome of the single `httpx.post` call made by
`_chat_request` / `_search_request` in `main.py`: a timeout exception, a
connection exception with its message, or an HTTP response carrying the
status code, the optional `retry-after` header, the response text, and the
parsed body (passed through untouched on success). -/
inductive TransportOutcome (α : Type) where
  | timeout
  | connectError (cause : String)
  | response (status : Nat) (retryAfter : Option String) (text : String) (body : α)

/-- Error classification of `_chat_request` (`main.py` lines 119-140):
timeout, connection error, then status checks 429 / 401 / >= 400 in source
order; a non-error response's parsed body is returned. -/
def classify_chat {α : Type} : TransportOutcome α → Except StructuredError α
  | .timeout =>
      .error ⟨"Request timed out", 7, true,
              "Increase PERPLEXITY_TIMEOUT_MS or try again"⟩
  | .connectError cause =>
      .error ⟨"Connection error: " ++ cause, 9, true, ""⟩
  | .response status retryAfter text body =>
      if status = 429 then
        .error ⟨"Rate limited. Retry after " ++ retryAfter.getD "unknown" ++ "s",
                8, true, ""⟩
      else if status = 401 then
        .error ⟨"Authentication failed — invalid API key", 4, false,
                "Check your API key"⟩
      else if 400 ≤ status then
        .error ⟨"API error " ++ toString status ++ ": " ++ text,
                9, decide (500 ≤ status), ""⟩
      else
        .ok body

/-- Error classification of `_search_request` (`main.py` lines 156-175):
identical branch structure to `_chat_request`, but the timeout and 401
errors carry no remediation string there. -/
def classify_search {α : Type} : TransportOutcome α → Except StructuredError α
  | .timeout =>
      .error ⟨"Request timed out", 7, true, ""⟩
  | .connectError cause =>
      .error ⟨"Connection error: " ++ cause, 9, true, ""⟩
  | .response status retryAfter text body =>
      if status = 429 then
        .error ⟨"Rate limited. Retry after " ++ retryAfter.getD "unknown" ++ "s",
                8, true, ""⟩
      else if status = 401 then
        .error ⟨"Authentication failed — invalid API key", 4, false, ""⟩
      else if 400 ≤ status then
        .error ⟨"API error " ++ toString status ++ ": " ++ text,
                9, decide (500 ≤ status), ""⟩
      else
        .ok body

/-- Characters of the literal opening tag matched by `_strip_thinking`. -/
def openTag : List Char := "<think>".data

/-- Characters of the literal closing tag matched by `_strip_thinking`. -/
def closeTag : List Char := "</think>".data

/-- Index of the first occurrence of `pat` in a character list, scanning
left to right, as the regex engine does when looking for the literal
opening tag. -/
def findSub (pat : List Char) : List Char → Option Nat
  | [] => if pat.isEmpty then some 0 else none
  | c :: cs =>
    if pat.isPrefixOf (c :: cs) then some 0
    else (findSub pat cs).map (· + 1)

/-- One-pass substitution of `re.sub(r"<think>.*?</think>", "", text,
flags=re.DOTALL)` from `_strip_thinking` (`main.py` lines 99-101): find
the leftmost `<think>`, delete through the first `</think>` after it
(non-greedy, `.` matching newlines), and continue scanning after the
deletion point, never rescanning the kept prefix.  If the leftmost
`<think>` has no `</think>` after it, no later `<think>` can have one
either, so the scan stops.  Each step removes at least the two tags
(15 characters) while consuming one unit of fuel, so `l.length` fuel
never runs out before the scan finishes. -/
def removeThinkFuel : Nat → List Char → List Char
  | 0, s => s
  | fuel + 1, s =>
    match findSub openTag s with
    | none => s
    | some i =>
      match findSub closeTag (s.drop (i + openTag.length)) with
      | none => s
      | some j =>
        s.take i ++
          removeThinkFuel fuel ((s.drop (i + openTag.length)).drop (j + closeTag.length))

/-- The full regex substitution over a character list. -/
def removeThink (l : List Char) : List Char := removeThinkFuel l.length l

/-- Python `str.strip()` whitespace test, restricted to the ASCII
whitespace characters. -/
def isPyWs (c : Char) : Bool :=
  c = ' ' || c = '\t' || c = '\n' || c = '\r' || c = '\x0b' || c = '\x0c'

/-- Python `str.strip()`: remove leading then trailing whitespace. -/
def pyStrip (l : List Char) : List Char :=
  List.rdropWhile isPyWs (List.dropWhile isPyWs l)

/-- The function `_strip_thinking(text)` from `main.py` (lines 99-101):
the one-pass regex substitution followed by `.strip()`. -/
def strip_thinking (s : String) : String :=
  String.mk (pyStrip (removeThink s.data))

/-- Whether `pat` occurs as a contiguous substring of `s`. -/
def strContains (pat s : String) : Bool :=
  (findSub pat.data s.data).isSome

/-- Python `"\n".join(lines)`. -/
def joinNL : List String → String
  | [] => ""
  | [a] => a
  | a :: b :: rest => a ++ "\n" ++ joinNL (b :: rest)

/-- One formatted citation line from the list comprehension in
`_format_citations`: 0-based enumeration index `i` with text `[i+1] url`. -/
def citLine (p : Nat × String) : String :=
  "[" ++ toString (p.1 + 1) ++ "] " ++ p.2

/-- The function `_format_citations(citations)` from `main.py`
(lines 104-109). -/
def format_citations (citations : List String) : String :=
  if citations.isEmpty then ""
  else "\n\nCitations:\n" ++ joinNL (citations.enum.map citLine)

/-- The `message` object of a chat completion choice; a missing `content`
key is `none` (reading it raises in Python). -/
structure ChatMessage where
  content : Option String
deriving DecidableEq, Repr

/-- One entry of the `choices` array; a missing `message` key is `none`. -/
structure Choice where
  message : Option ChatMessage
deriving DecidableEq, Repr

/-- The parsed 2xx chat response body as read by `ask` / `research` /
`reason`: `choices` (indexed without a default), and the defaulted reads
`data.get("citations", [])`, `data.get("model", model)` and
`data.get("usage")` (usage passed through untouched, kept here in
serialized form). -/
structure ChatBody where
  choices : List Choice
  citations : Option (List String)
  model : Option String
  usage : Option String
deriving DecidableEq, Repr

/-- The lookup chain `data["choices"][0]["message"]["content"]`
(`main.py` line 292 and equivalents): `none` exactly when some step would
raise `KeyError` / `IndexError` in Python. -/
def extractContent (b : ChatBody) : Option String :=
  match b.choices.head? with
  | none => none
  | some c =>
    match c.message with
    | none => none
    | some m => m.content

/-- The `data` object of the structured success envelope emitted by the
chat-style commands (`main.py` lines 299-305 and equivalents). -/
structure ChatEnvelope where
  response : String
  model : String
  provider : String
  citations : List String
  usage : Option String
deriving DecidableEq, Repr

/-- Observable outcome of handling a 2xx chat body: a success envelope, a
structured error via `emit_error`, or an uncaught Python exception. -/
inductive CmdOutcome where
  | success (env : ChatEnvelope)
  | errorOut (e : StructuredError)
  | crash
deriving DecidableEq, Repr

/-- Whether an outcome is a structured error (as opposed to a success or
an uncaught exception). -/
def isStructuredErrorOutcome : CmdOutcome → Bool
  | .errorOut _ => true
  | _ => false

/-- Handling of a 2xx body by `ask` (`main.py` lines 292-305): extract the
content (crashing when absent), append the citation block, build the
envelope.  `ask` has no `--strip-thinking` option and never strips. -/
def askHandleBody (modelAlias providerName : String) (b : ChatBody) : CmdOutcome :=
  match extractContent b with
  | none => .crash
  | some content =>
    let citations := b.citations.getD []
    .success ⟨content ++ format_citations citations,
              b.model.getD modelAlias, providerName, citations, b.usage⟩

/-- Handling of a 2xx body by `research` (`main.py` lines 333-348):
extract the content (crashing when absent), strip thinking blocks exactly
when the `--strip-thinking` flag was given, append the citation block,
build the envelope. -/
def researchHandleBody (stripFlag : Bool) (modelAlias providerName : String)
    (b : ChatBody) : CmdOutcome :=
  match extractContent b with
  | none => .crash
  | some content0 =>
    let content := if stripFlag then strip_thinking content0 else content0
    let citations := b.citations.getD []
    .success ⟨content ++ format_citations citations,
              b.model.getD modelAlias, providerName, citations, b.usage⟩

/-- Handling of a 2xx body by `reason` (`main.py` lines 375-390), which is
line-for-line the same as `research`'s. -/
def reasonHandleBody : Bool → String → String → ChatBody → CmdOutcome :=
  researchHandleBody

/-- One record of a search response's `results` array; every field is read
with `.get`, so absent keys default rather than raising. -/
structure SearchRecord where
  title : Option String
  url : Option String
  snippet : Option String
  date : Option String
deriving DecidableEq, Repr

/-- Python truthiness of `r.get(key)` for an optional string field:
present and non-empty. -/
def truthy (o : Option String) : Bool := !(o.getD "").isEmpty

/-- The lines appended for one search result entry (`main.py` lines
257-263): bolded title with an `Untitled` default, URL line, optional
snippet line, optional date line, and an empty separator line. -/
def renderRecord (i : Nat) (r : SearchRecord) : List String :=
  [toString i ++ ". **" ++ r.title.getD "Untitled" ++ "**",
   "   URL: " ++ r.url.getD ""]
  ++ (if truthy r.snippet then ["   " ++ r.snippet.getD ""] else [])
  ++ (if truthy r.date then ["   Date: " ++ r.date.getD ""] else [])
  ++ [""]

/-- The `enumerate(results, 1)` rendering loop (`main.py` lines 256-263). -/
def renderAll : Nat → List SearchRecord → List String
  | _, [] => []
  | i, r :: rs => renderRecord i r ++ renderAll (i + 1) rs

/-- Text-mode rendering of a search success (`main.py` lines 250-264):
`No results found.` for an empty result list, otherwise a `Found N search
results:` header followed by the numbered entries, newline-joined. -/
def searchTextOutput (results : List SearchRecord) : String :=
  if results.isEmpty then "No results found."
  else
    joinNL (("Found " ++ toString results.length ++ " search results:\n")
      :: renderAll 1 results)

end PerplexityCli

namespace PerplexityCli

/-- When the opening tag does not occur, the substitution scan keeps the
text unchanged, whatever the fuel. -/
theorem removeThinkFuel_of_none {l : List Char} (h : findSub openTag l = none) :
    ∀ fuel, removeThinkFuel fuel l = l := by
  intro fuel
  cases fuel with
  | zero => rfl
  | succ n => simp [removeThinkFuel, h]

/-- When the opening tag does not occur, `removeThink` is the identity. -/
theorem removeThink_of_none {l : List Char} (h : findSub openTag l = none) :
    removeThink l = l :=
  removeThinkFuel_of_none h _

/-- A stripped list has no leading whitespace left. -/
theorem dropWhile_pyStrip (l : List Char) :
    List.dropWhile isPyWs (pyStrip l) = pyStrip l := by
  cases e : pyStrip l with
  | nil => rfl
  | cons c cs =>
    obtain ⟨t, ht⟩ := List.rdropWhile_prefix isPyWs (List.dropWhile isPyWs l)
    have hd : List.dropWhile isPyWs l = c :: (cs ++ t) := by
      rw [← ht]
      rw [pyStrip] at e
      rw [e]
      simp
    have h2 := List.head?_dropWhile_not isPyWs l
    rw [hd] at h2
    simp only [List.head?_cons] at h2
    exact List.dropWhile_cons_of_neg (by simp [h2])

/-- Python `strip()` is idempotent. -/
theorem pyStrip_idem (l : List Char) : pyStrip (pyStrip l) = pyStrip l := by
  conv_lhs => rw [pyStrip, dropWhile_pyStrip]
  exact List.rdropWhile_idempotent _ _

/-- C5 counterexample: `_strip_thinking` is not idempotent (removing a
block can splice a fresh `<think>...</think>` pair together, which only a
second pass removes), and text without `<think>` tags is not always
returned unchanged (surrounding whitespace is trimmed). -/
theorem strip_thinking_counterexample :
    strip_thinking (strip_thinking "<thi<think>A</think>nk>B</think>") ≠
      strip_thinking "<thi<think>A</think>nk>B</think>" ∧
    strip_thinking " x" ≠ " x" := by decide

/-- C5 amended: on text without a `<think>` occurrence `_strip_thinking`
returns the whitespace-trimmed text (so such text is unchanged exactly
when already trimmed), and applying it twice equals applying it once
whenever the first application's output has no `<think>` occurrence. -/
theorem strip_thinking_trim_and_conditional_idem :
    (∀ t : String, findSub openTag t.data = none →
      strip_thinking t = String.mk (pyStrip t.data)) ∧
    (∀ t : String, findSub openTag t.data = none → pyStrip t.data = t.data →
      strip_thinking t = t) ∧
    (∀ t : String, findSub openTag (strip_thinking t).data = none →
      strip_thinking (strip_thinking t) = strip_thinking t) := by
  have h1 : ∀ t : String, findSub openTag t.data = none →
      strip_thinking t = String.mk (pyStrip t.data) := by
    intro t h
    simp only [strip_thinking, removeThink_of_none h]
  refine ⟨h1, ?_, ?_⟩
  · intro t h hp
    rw [h1 t h, hp]
  · intro t h
    rw [h1 _ h]
    show String.mk (pyStrip (pyStrip (removeThink t.data))) = strip_thinking t
    rw [pyStrip_idem]
    rfl

/-- Witness for the amended C5 at concrete inputs: whitespace-trimming on
tag-free text, identity on trimmed tag-free text, and idempotence where
the first pass leaves no `<think>`. -/
theorem strip_thinking_amended_witness :
    (findSub openTag "  hi  ".data = none ∧
      strip_thinking "  hi  " = String.mk (pyStrip "  hi  ".data)) ∧
    (findSub openTag "hi".data = none ∧ pyStrip "hi".data = "hi".data ∧
      strip_thinking "hi" = "hi") ∧
    (findSub openTag (strip_thinking "<think>a</think> b").data = none ∧
      strip_thinking (strip_thinking "<think>a</think> b") =
        strip_thinking "<think>a</think> b") :=
  ⟨⟨by decide, strip_thinking_trim_and_conditional_idem.1 _ (by decide)⟩,
   ⟨by decide, by decide,
    strip_thinking_trim_and_conditional_idem.2.1 _ (by decide) (by decide)⟩,
   ⟨by decide, strip_thinking_trim_and_conditional_idem.2.2 _ (by decide)⟩⟩

/-- C1: routing the `search` command with the alternative provider
(openrouter) explicitly requested fails with a non-retryable error of code
2, for every credential configuration; with any other requested provider
the `search` command is routed to the primary provider (perplexity). -/
theorem search_routing_forces_perplexity (st : Settings) (p : Option Provider) :
    (∃ e : StructuredError,
      resolve_provider st (some Provider.openrouter) "search" = .error e ∧
      e.code = 2 ∧ e.retryable = false) ∧
    (p ≠ some Provider.openrouter →
      resolve_provider st p "search" = .ok Provider.perplexity) := by
  constructor
  · exact ⟨_, rfl, rfl, rfl⟩
  · intro hp
    simp [resolve_provider, hp]

/-- Witness for C1 at a concrete configuration. -/
theorem search_routing_forces_perplexity_witness :
    ((some Provider.perplexity : Option Provider) ≠ some Provider.openrouter) ∧
    resolve_provider ⟨"", "k", "", 300000⟩ (some Provider.perplexity) "search" =
      .ok Provider.perplexity :=
  ⟨by decide,
   (search_routing_forces_perplexity ⟨"", "k", "", 300000⟩
     (some Provider.perplexity)).2 (by decide)⟩

/-- C3: for the `ask` / `research` / `reason` commands an explicit provider
is returned unchanged, and auto-detection returns perplexity when its key
is present, else openrouter when its key is present, else defaults to
perplexity. -/
theorem chat_routing_auto_detect (st : Settings) (p : Provider) (command : String)
    (hcmd : command = "ask" ∨ command = "research" ∨ command = "reason") :
    resolve_provider st (some p) command = .ok p ∧
    (st.perplexity_api_key.isEmpty = false →
      resolve_provider st none command = .ok Provider.perplexity) ∧
    (st.perplexity_api_key.isEmpty = true →
      st.openrouter_api_key.isEmpty = false →
      resolve_provider st none command = .ok Provider.openrouter) ∧
    (st.perplexity_api_key.isEmpty = true →
      st.openrouter_api_key.isEmpty = true →
      resolve_provider st none command = .ok Provider.perplexity) := by
  have hns : ¬(command = "search") := by
    rcases hcmd with h | h | h <;> subst h <;> decide
  refine ⟨?_, ?_, ?_, ?_⟩
  · simp [resolve_provider, hns]
  · intro h1
    simp [resolve_provider, hns, h1]
  · intro h1 h2
    simp [resolve_provider, hns, h1, h2]
  · intro h1 h2
    simp [resolve_provider, hns, h1, h2]

/-- Witness for C3 at concrete configurations: only the openrouter key set
routes `ask` to openrouter; an explicit provider is returned unchanged. -/
theorem chat_routing_auto_detect_witness :
    resolve_provider ⟨"", "orkey", "", 300000⟩ (some Provider.perplexity) "ask" =
      .ok Provider.perplexity ∧
    resolve_provider ⟨"", "orkey", "", 300000⟩ none "ask" =
      .ok Provider.openrouter := by
  have h := chat_routing_auto_detect ⟨"", "orkey", "", 300000⟩
    Provider.perplexity "ask" (Or.inl rfl)
  exact ⟨h.1, h.2.2.1 (by decide) (by decide)⟩

/-- C9: credential resolution keeps a non-empty explicit configuration
value; with an empty configuration value it falls back to the keyring,
keeping a non-empty result; a keyring failure (or an absent / empty stored
value) leaves the credential absent rather than propagating an error. -/
theorem credential_fallback_order (c v : String) (kr : KeyringOutcome) :
    (c.isEmpty = false → keyring_fallback c kr = c) ∧
    (v.isEmpty = false → keyring_fallback "" (.ok (some v)) = v) ∧
    keyring_fallback "" (.error ()) = "" ∧
    keyring_fallback "" (.ok none) = "" ∧
    (v.isEmpty = true → keyring_fallback "" (.ok (some v)) = "") := by
  have h0 : "".isEmpty = true := rfl
  refine ⟨?_, ?_, rfl, rfl, ?_⟩
  · intro hc
    simp [keyring_fallback, hc]
  · intro hv
    simp [keyring_fallback, h0, hv]
  · intro hv
    simp [keyring_fallback, h0, hv]

/-- Witness for C9 at concrete inputs: an explicit value wins over a
failing keyring; a keyring value fills an empty configuration. -/
theorem credential_fallback_order_witness :
    keyring_fallback "envkey" (.error ()) = "envkey" ∧
    keyring_fallback "" (.ok (some "stored")) = "stored" := by
  have h := credential_fallback_order "envkey" "stored" (.error ())
  exact ⟨h.1 (by decide), h.2.1 (by decide)⟩

/-- C2: the response classification shared by chat and search requests:
transport timeout gives code 7 retryable; connection failure gives code 9
retryable; HTTP 429 gives code 8 retryable with the `retry-after` header
value (default "unknown") in the message; HTTP 401 gives code 4
non-retryable; any other status >= 400 gives code 9, retryable exactly
when the status is >= 500. -/
theorem response_classification (α : Type) (body : α) (cause text : String)
    (ra : Option String) (status : Nat) :
    (classify_chat (.timeout : TransportOutcome α) =
      .error ⟨"Request timed out", 7, true,
              "Increase PERPLEXITY_TIMEOUT_MS or try again"⟩ ∧
     classify_search (.timeout : TransportOutcome α) =
      .error ⟨"Request timed out", 7, true, ""⟩) ∧
    (classify_chat (.connectError cause : TransportOutcome α) =
      .error ⟨"Connection error: " ++ cause, 9, true, ""⟩ ∧
     classify_search (.connectError cause : TransportOutcome α) =
      .error ⟨"Connection error: " ++ cause, 9, true, ""⟩) ∧
    (classify_chat (.response 429 ra text body) =
      .error ⟨"Rate limited. Retry after " ++ ra.getD "unknown" ++ "s", 8, true, ""⟩ ∧
     classify_search (.response 429 ra text body) =
      .error ⟨"Rate limited. Retry after " ++ ra.getD "unknown" ++ "s", 8, true, ""⟩) ∧
    (classify_chat (.response 401 ra text body) =
      .error ⟨"Authentication failed — invalid API key", 4, false,
              "Check your API key"⟩ ∧
     classify_search (.response 401 ra text body) =
      .error ⟨"Authentication failed — invalid API key", 4, false, ""⟩) ∧
    (400 ≤ status → status ≠ 429 → status ≠ 401 →
      classify_chat (.response status ra text body) =
        .error ⟨"API error " ++ toString status ++ ": " ++ text,
                9, decide (500 ≤ status), ""⟩ ∧
      classify_search (.response status ra text body) =
        .error ⟨"API error " ++ toString status ++ ": " ++ text,
                9, decide (500 ≤ status), ""⟩) ∧
    (status < 400 → status ≠ 429 →
      classify_chat (.response status ra text body) = .ok body ∧
      classify_search (.response status ra text body) = .ok body) := by
  refine ⟨⟨rfl, rfl⟩, ⟨rfl, rfl⟩, ⟨by simp [classify_chat], by simp [classify_search]⟩,
          ⟨by simp [classify_chat], by simp [classify_search]⟩, ?_, ?_⟩
  · intro h400 h429 h401
    constructor <;> simp [classify_chat, classify_search, h429, h401, h400]
  · intro hlt h429
    have h401 : status ≠ 401 := by omega
    have h400 : ¬(400 ≤ status) := by omega
    constructor <;> simp [classify_chat, classify_search, h429, h401, h400]

/-- Witness for C2 at concrete statuses: 503 is code 9 retryable, 404 is
code 9 non-retryable, 200 passes the body through. -/
theorem response_classification_witness :
    classify_chat (.response 503 none "oops" ()) =
      .error ⟨"API error " ++ toString 503 ++ ": " ++ "oops", 9, decide (500 ≤ 503), ""⟩ ∧
    classify_search (.response 404 none "gone" ()) =
      .error ⟨"API error " ++ toString 404 ++ ": " ++ "gone", 9, decide (500 ≤ 404), ""⟩ ∧
    classify_chat (.response 200 none "" ()) = .ok () := by
  refine ⟨?_, ?_, ?_⟩
  · exact ((response_classification Unit () "" "oops" none 503).2.2.2.2.1
      (by decide) (by decide) (by decide)).1
  · exact ((response_classification Unit () "" "gone" none 404).2.2.2.2.1
      (by decide) (by decide) (by decide)).2
  · exact ((response_classification Unit () "" "" none 200).2.2.2.2.2
      (by decide) (by decide)).1

/-- C4 counterexample: on a 2xx chat body whose
`choices[0].message.content` is absent (here: an empty `choices` array)
the `ask` handler crashes with an uncaught lookup error; it does not
produce a structured error, code 9 or otherwise. -/
theorem missing_content_counterexample :
    askHandleBody "sonar-pro" "perplexity" ⟨[], none, none, none⟩ =
      CmdOutcome.crash ∧
    isStructuredErrorOutcome
      (askHandleBody "sonar-pro" "perplexity" ⟨[], none, none, none⟩) = false := by
  decide

/-- C4 amended: for every chat success body in which
`choices[0].message.content` is absent, each chat-style handler raises an
uncaught lookup error (crashes) rather than producing a structured error. -/
theorem missing_content_crashes (modelAlias providerName : String)
    (b : ChatBody) (h : extractContent b = none) :
    askHandleBody modelAlias providerName b = CmdOutcome.crash ∧
    (∀ stripFlag, researchHandleBody stripFlag modelAlias providerName b =
      CmdOutcome.crash) ∧
    (∀ stripFlag, reasonHandleBody stripFlag modelAlias providerName b =
      CmdOutcome.crash) := by
  refine ⟨?_, fun stripFlag => ?_, fun stripFlag => ?_⟩ <;>
    simp [askHandleBody, researchHandleBody, reasonHandleBody, h]

/-- Witness for the amended C4 at a body whose first choice has no
`message` object. -/
theorem missing_content_crashes_witness :
    extractContent ⟨[⟨none⟩], none, none, none⟩ = none ∧
    askHandleBody "sonar-pro" "perplexity" ⟨[⟨none⟩], none, none, none⟩ =
      CmdOutcome.crash :=
  ⟨by decide,
   (missing_content_crashes "sonar-pro" "perplexity" ⟨[⟨none⟩], none, none, none⟩
     (by decide)).1⟩

/-- C6 counterexample: thinking-block stripping is not available for the
`ask` command.  On content carrying a `<think>` block, `ask` returns the
content verbatim (its handler has no strip option at all), although
stripping would have changed it. -/
theorem strip_availability_counterexample :
    askHandleBody "m" "perplexity"
        ⟨[⟨some ⟨some "<think>a</think>b"⟩⟩], none, none, none⟩ =
      CmdOutcome.success ⟨"<think>a</think>b", "m", "perplexity", [], none⟩ ∧
    strip_thinking "<think>a</think>b" = "b" := by
  decide

/-- C6 amended: thinking-block stripping is applied exactly when the
caller requests it, and only the `research` and `reason` commands offer
it; `ask` always returns the extracted content unstripped, and `search`
text rendering passes titles through verbatim. -/
theorem strip_availability (modelAlias providerName c t u : String)
    (b : ChatBody) (hc : extractContent b = some c) :
    askHandleBody modelAlias providerName b =
      CmdOutcome.success ⟨c ++ format_citations (b.citations.getD []),
        b.model.getD modelAlias, providerName, b.citations.getD [], b.usage⟩ ∧
    (∀ stripFlag, researchHandleBody stripFlag modelAlias providerName b =
      CmdOutcome.success
        ⟨(if stripFlag then strip_thinking c else c) ++
            format_citations (b.citations.getD []),
          b.model.getD modelAlias, providerName, b.citations.getD [], b.usage⟩) ∧
    (∀ stripFlag, reasonHandleBody stripFlag modelAlias providerName b =
      researchHandleBody stripFlag modelAlias providerName b) ∧
    searchTextOutput [⟨some t, some u, none, none⟩] =
      joinNL ["Found 1 search results:\n", "1. **" ++ t ++ "**",
              "   URL: " ++ u, ""] := by
  refine ⟨?_, fun stripFlag => ?_, fun _ => rfl, ?_⟩
  · simp [askHandleBody, hc]
  · simp [researchHandleBody, hc]
  · have h0 : ("" : String).isEmpty = true := rfl
    have hts : toString (1 : Nat) = "1" := rfl
    have hf : "Found " ++ "1" ++ " search results:\n" = "Found 1 search results:\n" := rfl
    have hn : ("1" : String) ++ ". **" = "1. **" := rfl
    simp [searchTextOutput, renderAll, renderRecord, truthy, h0, hts, hf, hn]

/-- Witness for the amended C6: `research` strips a `<think>` block when
asked and keeps it when not, on a concrete body. -/
theorem strip_availability_witness :
    extractContent ⟨[⟨some ⟨some "<think>x</think>ok"⟩⟩], none, none, none⟩ =
      some "<think>x</think>ok" ∧
    researchHandleBody true "m" "perplexity"
        ⟨[⟨some ⟨some "<think>x</think>ok"⟩⟩], none, none, none⟩ =
      CmdOutcome.success
        ⟨(if true then strip_thinking "<think>x</think>ok"
            else "<think>x</think>ok") ++ format_citations [],
          "m", "perplexity", [], none⟩ :=
  ⟨by decide,
   ((strip_availability "m" "perplexity" "<think>x</think>ok" "T" "u"
      ⟨[⟨some ⟨some "<think>x</think>ok"⟩⟩], none, none, none⟩
      (by decide)).2.1 true)⟩

/-- Enumerated citation lines agree with a positional description: the
line at position `k` carries index `n + k` and the `k`-th url. -/
theorem enumFrom_map_citLine (l : List String) : ∀ n : Nat,
    (List.enumFrom n l).map citLine =
      (List.range l.length).map (fun k => citLine (n + k, l.getD k "")) := by
  induction l with
  | nil => intro n; rfl
  | cons a l ih =>
    intro n
    show citLine (n, a) :: (List.enumFrom (n + 1) l).map citLine = _
    rw [ih (n + 1), List.length_cons, List.range_succ_eq_map, List.map_cons,
        List.map_map]
    refine congrArg₂ List.cons (by simp) ?_
    refine List.map_congr_left ?_
    intro k hk
    have h1 : n + 1 + k = n + (k + 1) := by omega
    simp [Function.comp, h1, Nat.succ_eq_add_one]

/-- C7: `_format_citations` maps the empty list to the empty string and a
non-empty list to a blank line, the `Citations:` header, and one line per
url of the form `[index] url` with 1-based indices, newline-joined; the
chat-style handlers append this block to the (possibly stripped) response
text exactly once. -/
theorem format_citations_spec :
    format_citations [] = "" ∧
    format_citations ["https://a", "https://b"] =
      "\n\nCitations:\n[1] https://a\n[2] https://b" ∧
    (∀ (u : String) (us : List String),
      format_citations (u :: us) =
        "\n\nCitations:\n" ++
          joinNL ((List.range (us.length + 1)).map
            (fun k => "[" ++ toString (k + 1) ++ "] " ++ (u :: us).getD k ""))) ∧
    (∀ (stripFlag : Bool) (modelAlias providerName : String) (b : ChatBody)
        (c : String), extractContent b = some c →
      researchHandleBody stripFlag modelAlias providerName b =
        CmdOutcome.success
          ⟨(if stripFlag then strip_thinking c else c) ++
              format_citations (b.citations.getD []),
            b.model.getD modelAlias, providerName, b.citations.getD [],
            b.usage⟩) := by
  refine ⟨rfl, by decide, ?_, ?_⟩
  · intro u us
    show "\n\nCitations:\n" ++ joinNL ((List.enumFrom 0 (u :: us)).map citLine) = _
    rw [enumFrom_map_citLine]
    simp [citLine]
  · intro stripFlag modelAlias providerName b c hc
    simp [researchHandleBody, hc]

/-- Witness for C7 at a concrete one-element list and a concrete body. -/
theorem format_citations_spec_witness :
    format_citations ["u1"] =
      "\n\nCitations:\n" ++
        joinNL ((List.range 1).map
          (fun k => "[" ++ toString (k + 1) ++ "] " ++ ["u1"].getD k "")) ∧
    extractContent ⟨[⟨some ⟨some "ans"⟩⟩], some ["u1"], none, none⟩ = some "ans" ∧
    researchHandleBody false "m" "perplexity"
        ⟨[⟨some ⟨some "ans"⟩⟩], some ["u1"], none, none⟩ =
      CmdOutcome.success
        ⟨(if false then strip_thinking "ans" else "ans") ++ format_citations ["u1"],
          "m", "perplexity", ["u1"], none⟩ :=
  ⟨format_citations_spec.2.2.1 "u1" [],
   by decide,
   format_citations_spec.2.2.2 false "m" "perplexity"
     ⟨[⟨some ⟨some "ans"⟩⟩], some ["u1"], none, none⟩ "ans" (by decide)⟩

/-- C8 counterexample: the text-mode search rendering does not produce a
bold-free title: the title is wrapped in literal `**` markers (and a
`Found N search results:` header precedes the listing). -/
theorem search_title_bold_counterexample :
    searchTextOutput [⟨some "T", some "u", none, none⟩] =
      "Found 1 search results:\n\n1. **T**\n   URL: u\n" ∧
    strContains "**" (searchTextOutput [⟨some "T", some "u", none, none⟩]) =
      true := by
  decide

/-- C8 amended: zero results render exactly `No results found.`; a
non-empty result list renders a `Found N search results:` header and a
numbered listing with 1-based index and the title wrapped in `**` markers
(defaulting to `Untitled` when missing), a URL line, an optional snippet
line, an optional date line, and a blank separator line after each
entry. -/
theorem search_render_amended :
    searchTextOutput [] = "No results found." ∧
    (∀ t u sn dt : String, sn.isEmpty = false → dt.isEmpty = false →
      searchTextOutput [⟨some t, some u, some sn, some dt⟩] =
        joinNL ["Found 1 search results:\n",
                "1. **" ++ t ++ "**",
                "   URL: " ++ u,
                "   " ++ sn,
                "   Date: " ++ dt,
                ""]) ∧
    (∀ u : String, searchTextOutput [⟨none, some u, none, none⟩] =
        joinNL ["Found 1 search results:\n",
                "1. **Untitled**",
                "   URL: " ++ u,
                ""]) ∧
    searchTextOutput
        [⟨some "A", some "ua", none, none⟩, ⟨some "B", some "ub", none, none⟩] =
      "Found 2 search results:\n\n1. **A**\n   URL: ua\n\n2. **B**\n   URL: ub\n" := by
  have h0 : ("" : String).isEmpty = true := rfl
  have hts : toString (1 : Nat) = "1" := rfl
  have hf : "Found " ++ "1" ++ " search results:\n" = "Found 1 search results:\n" := rfl
  have hn : ("1" : String) ++ ". **" = "1. **" := rfl
  refine ⟨rfl, ?_, ?_, by decide⟩
  · intro t u sn dt hsn hdt
    simp [searchTextOutput, renderAll, renderRecord, truthy, h0, hsn, hdt,
          hts, hf, hn]
  · intro u
    simp [searchTextOutput, renderAll, renderRecord, truthy, h0, hts, hf, hn]

/-- Witness for the amended C8: a record with all fields present renders
with snippet and date lines. -/
theorem search_render_amended_witness :
    ("s" : String).isEmpty = false ∧ ("2024" : String).isEmpty = false ∧
    searchTextOutput [⟨some "T", some "u", some "s", some "2024"⟩] =
      joinNL ["Found 1 search results:\n", "1. **T**", "   URL: u",
              "   s", "   Date: 2024", ""] :=
  ⟨by decide, by decide,
   search_render_amended.2.1 "T" "u" "s" "2024" (by decide) (by decide)⟩

/-- C10: in the structured success envelope of a chat-style command with a
non-empty citation list, the citations appear twice: the `response` field
is the (possibly stripped) content with the non-empty citation block
appended, and the `citations` field is the same url list. -/
theorem citations_in_envelope_twice (modelAlias providerName c u : String)
    (us : List String) (b : ChatBody) (hc : extractContent b = some c)
    (hcit : b.citations = some (u :: us)) :
    askHandleBody modelAlias providerName b =
      CmdOutcome.success ⟨c ++ format_citations (u :: us),
        b.model.getD modelAlias, providerName, u :: us, b.usage⟩ ∧
    (∀ stripFlag, researchHandleBody stripFlag modelAlias providerName b =
      CmdOutcome.success
        ⟨(if stripFlag then strip_thinking c else c) ++ format_citations (u :: us),
          b.model.getD modelAlias, providerName, u :: us, b.usage⟩) ∧
    format_citations (u :: us) ≠ "" := by
  refine ⟨?_, fun stripFlag => ?_, ?_⟩
  · simp [askHandleBody, hc, hcit]
  · simp [researchHandleBody, hc, hcit]
  · intro heq
    have hlen := congrArg String.length heq
    rw [show format_citations (u :: us) =
          "\n\nCitations:\n" ++ joinNL ((u :: us).enum.map citLine) from rfl,
        String.length_append] at hlen
    have h13 : ("\n\nCitations:\n" : String).length = 13 := rfl
    have hz : ("" : String).length = 0 := rfl
    rw [h13, hz] at hlen
    omega

/-- Witness for C10 at a concrete body with two citations. -/
theorem citations_in_envelope_twice_witness :
    extractContent ⟨[⟨some ⟨some "X"⟩⟩], some ["https://a", "https://b"],
        some "m", none⟩ = some "X" ∧
    askHandleBody "sonar-pro" "perplexity"
        ⟨[⟨some ⟨some "X"⟩⟩], some ["https://a", "https://b"], some "m", none⟩ =
      CmdOutcome.success
        ⟨"X" ++ format_citations ["https://a", "https://b"],
          (some "m").getD "sonar-pro", "perplexity",
          ["https://a", "https://b"], none⟩ ∧
    format_citations ["https://a", "https://b"] ≠ "" := by
  have h := citations_in_envelope_twice "sonar-pro" "perplexity" "X" "https://a"
    ["https://b"]
    ⟨[⟨some ⟨some "X"⟩⟩], some ["https://a", "https://b"], some "m", none⟩
    (by decide) (by decide)
  exact ⟨by decide, h.1, h.2.2⟩

end PerplexityCli
